import Mathlib

/-!
Shallow embedding of the onyx scrobbler core: the record data model
(`src/record.rs`, `src/parser/meta.rs`), the provenance stamping and batch
submission pipeline (`src/scrobble.rs`), the AudioScrobbler log entry parsing
(`src/parser/audio_scrobbler.rs`, `src/parser.rs`), the status record
(`src/status.rs`), the error taxonomy (`src/error.rs`, `src/main.rs`) and the
authentication session lifecycle (`src/auth.rs`).

External collaborators (the jacquard transport, chrono time formatting, the OS
keyring, the network) are modelled as oracles or parameters; `chrono`
timestamps are modelled as `Int` seconds.
-/

deriving instance DecidableEq for Except

namespace Onyx

/-- Credential storage backend choice (`main.rs StoreMethod`). -/
inductive StoreMethod where
  | keyring
  | file
  deriving DecidableEq, Repr

/-- Authentication method (`auth.rs AuthMethod`). -/
inductive AuthMethod where
  | oauth
  | appPassword
  deriving DecidableEq, Repr

/-! ## Error taxonomy

`error.rs` declares `OnyxError` with the ten variants `AuthStore`,
`SessionStore`, `Io`, `Serde`, `Identity`, `OAuthError`, `ClientError`,
`AgentError`, `ParserError`, `Other` (lines 22-53).  In addition, `auth.rs`
(lines 292, 648, 713, 735) constructs `OnyxError::Auth` and `main.rs`
(line 294) constructs `OnyxError::Parse`, and `main.rs handle_error` matches
`OnyxError::Auth`; those two variants are absent from the declaration in
`error.rs` (a version skew inside the snapshot), so the embedding carries the
union of all twelve variants that the program mentions.  Every variant's
payload is the message string the program would display. -/
inductive OnyxError where
  | authStore (msg : String)
  | sessionStore (msg : String)
  | ioError (msg : String)
  | serde (msg : String)
  | identity (msg : String)
  | oauthError (msg : String)
  | clientError (msg : String)
  | agentError (msg : String)
  | parserError (msg : String)
  | other (msg : String)
  | auth (msg : String)
  | parse (msg : String)
  deriving DecidableEq, Repr

/-- Display name of an `OnyxError` variant, from the `#[error("...")]`
attributes in `error.rs` and the variant names used by `auth.rs`/`main.rs`. -/
def OnyxError.kindName : OnyxError → String
  | .authStore _ => "AuthStore"
  | .sessionStore _ => "SessionStore"
  | .ioError _ => "Io"
  | .serde _ => "Serde"
  | .identity _ => "Identity"
  | .oauthError _ => "OAuthError"
  | .clientError _ => "ClientError"
  | .agentError _ => "AgentError"
  | .parserError _ => "ParserError"
  | .other _ => "Other"
  | .auth _ => "Auth"
  | .parse _ => "Parse"

/-- Modelled from the spec: the collapsed four-kind user-facing taxonomy that
section 7 of the spec names (Auth, Io, Parse, Other). -/
def specCollapsedKinds : List String := ["Auth", "Io", "Parse", "Other"]

/-- The twelve error kinds the program actually mentions: the ten declared in
`error.rs` plus `Auth` and `Parse` constructed in `auth.rs`/`main.rs`. -/
def onyxErrorKinds : List String :=
  ["AuthStore", "SessionStore", "Io", "Serde", "Identity", "OAuthError",
   "ClientError", "AgentError", "ParserError", "Other", "Auth", "Parse"]

/-- Whether `main.rs handle_error` (lines 551-563) attaches the
"try logging in" hint to an error: exactly the `OnyxError::Auth` arm does. -/
def handle_error_hint : OnyxError → Bool
  | .auth _ => true
  | _ => false

/-! ## Record data model -/

/-- An artist of a play (`record.rs Artist`; the jacquard feed `Artist` has the
same two data fields, so one structure embeds both; the jacquard-side
`extra_data` field is always `None` in this program and is omitted). -/
structure Artist where
  artist_name : String
  artist_mb_id : Option String
  deriving DecidableEq, Repr

/-- An artist produced by a log parser (`parser/meta.rs ParsedArtist`). -/
structure ParsedArtist where
  artist_name : String
  artist_mb_id : Option String
  deriving DecidableEq, Repr

/-- A track produced by a log parser (`parser/meta.rs ParsedTrack`).
Timestamps are `Int` seconds. -/
structure ParsedTrack where
  track_name : String
  track_mb_id : Option String
  recording_mb_id : Option String
  duration : Option Int
  artist_names : Option (List String)
  artist_mb_ids : Option (List String)
  artists : Option (List ParsedArtist)
  release_name : Option String
  release_mb_id : Option String
  isrc : Option String
  origin_url : Option String
  music_service_base_domain : Option String
  client_id : Option String
  played_time : Option Int
  track_discriminant : Option String
  release_discriminant : Option String
  deriving DecidableEq, Repr

/-- The submitted play record (`jacquard_api fm_teal Play` as filled in by
`scrobble.rs generate_play`; `extra_data` is always `None` and omitted). -/
structure Play where
  track_name : String
  track_mb_id : Option String
  recording_mb_id : Option String
  duration : Option Int
  artist_names : Option (List String)
  artist_mb_ids : Option (List String)
  artists : Option (List Artist)
  release_name : Option String
  release_mb_id : Option String
  isrc : Option String
  origin_url : Option String
  music_service_base_domain : Option String
  submission_client_agent : Option String
  played_time : Option Int
  track_discriminant : Option String
  release_discriminant : Option String
  deriving DecidableEq, Repr

/-! ## Scrobbler: provenance stamping (`scrobble.rs`) -/

/-- The scrobbler's identity data (`scrobble.rs Scrobbler`; the live agent is
factored out and supplied as a submission oracle where needed). -/
structure Scrobbler where
  service : String
  version : String
  deriving DecidableEq, Repr

/-- Provenance string (`scrobble.rs generate_client_agent`, lines 32-38). -/
def Scrobbler.generate_client_agent (sc : Scrobbler) (id : Option String) : String :=
  match id with
  | some id => sc.service ++ "/" ++ sc.version ++ " (" ++ id ++ ")"
  | none => sc.service ++ "/" ++ sc.version

/-- Conversion of a parsed artist (`scrobble.rs generate_artist`). -/
def Scrobbler.generate_artist (_sc : Scrobbler) (artist : ParsedArtist) : Artist :=
  { artist_name := artist.artist_name
    artist_mb_id := artist.artist_mb_id }

/-- Build the play record submitted for a parsed track
(`scrobble.rs generate_play`, lines 48-95). -/
def Scrobbler.generate_play (sc : Scrobbler) (track : ParsedTrack) : Play :=
  { track_name := track.track_name
    track_mb_id := track.track_mb_id
    recording_mb_id := track.recording_mb_id
    duration := track.duration
    artist_names := track.artist_names
    artist_mb_ids := track.artist_mb_ids
    artists := track.artists.map (fun v => v.map (sc.generate_artist))
    release_name := track.release_name
    release_mb_id := track.release_mb_id
    isrc := track.isrc
    origin_url := track.origin_url
    music_service_base_domain :=
      some (track.music_service_base_domain.getD "local")
    submission_client_agent :=
      some (sc.generate_client_agent track.client_id)
    played_time := track.played_time
    track_discriminant := track.track_discriminant
    release_discriminant := track.release_discriminant }

/-- Submit one track (`scrobble.rs scrobble_track`, lines 97-114): stamp the
play, hand it to the network (the `submit` oracle stands for
`agent.create_record`), and on failure wrap the cause together with the
track's display name.  The apostrophes of the source format string
`"{}, for '{}'"` are written with escapes. -/
def Scrobbler.scrobble_track (sc : Scrobbler) (submit : Play → Except String Unit)
    (track : ParsedTrack) : Except OnyxError Unit :=
  match submit (sc.generate_play track) with
  | .ok _ => .ok ()
  | .error e => .error (.other (e ++ ", for \x27" ++ track.track_name ++ "\x27"))

/-- Outcome of a batch submission (`scrobble.rs scrobble_logfile`):
the names attempted in order, the aggregated per-item failures in order, the
final summary line, and the overall result. -/
structure BatchOutcome where
  attempted : List String
  errors : List OnyxError
  summary : String
  result : Except OnyxError Unit
  deriving Repr

/-- The sequential submission loop of `scrobble_logfile` (lines 134-138): every
track is attempted in input order; a failure is pushed onto the error list and
the loop continues.  The oracle is indexed by the call number to model the
per-call outcome of the network. -/
def Scrobbler.scrobbleLoop (sc : Scrobbler) (submit : Nat → Play → Except String Unit) :
    Nat → List ParsedTrack → List String × List OnyxError
  | _, [] => ([], [])
  | i, t :: ts =>
    let r := sc.scrobble_track (submit i) t
    let rest := sc.scrobbleLoop submit (i + 1) ts
    (t.track_name :: rest.1,
      match r with
      | .ok _ => rest.2
      | .error e => e :: rest.2)

/-- Batch submission over an already-parsed track list
(`scrobble.rs scrobble_logfile`, lines 116-166; the preceding
`LogParser::parse` step is modelled separately by the parser embedding). -/
def Scrobbler.scrobble_logfile (sc : Scrobbler) (submit : Nat → Play → Except String Unit)
    (path : String) (tracks : List ParsedTrack) : BatchOutcome :=
  let count := tracks.length
  let run := sc.scrobbleLoop submit 0 tracks
  let errors := run.2
  if errors.isEmpty then
    { attempted := run.1
      errors := errors
      summary := "success: " ++ toString count ++ " tracks submitted"
      result := .ok () }
  else
    { attempted := run.1
      errors := errors
      summary := "summary: " ++ toString (count - errors.length)
        ++ " tracks submitted, " ++ toString errors.length ++ " failed"
      result := .error (.other ("failed to scrobble log file " ++ path
        ++ ", see errors above")) }

/-! ## AudioScrobbler log entry parsing

`parser/audio_scrobbler.rs parse_entry` (lines 86-108) and the older
`parser.rs ScrobbleLog::parse_entry` (lines 86-105) index the tab-split field
vector without bounds checks.  The embedding returns `Option`: `none` models a
Rust index-out-of-bounds panic, `some (Except.error _)` a returned
`ParserError`, and `some (Except.ok _)` a parsed entry.  Field expressions are
sequenced in the source's evaluation order. -/

/-- Parser error type (`parser/error.rs ParserError`); the `Syntax` variant is
embedded as `syntaxError`. -/
inductive ParserError where
  | ioError (msg : String)
  | syntaxError (msg : String)
  | other (msg : String)
  deriving DecidableEq, Repr

/-- Rating of a scrobble entry (`audio_scrobbler.rs ScrobbleRating`). -/
inductive ScrobbleRating where
  | listened
  | skipped
  deriving DecidableEq, Repr

/-- A raw log entry (`audio_scrobbler.rs Scrobble`). -/
structure AudioScrobblerParser.Scrobble where
  artist_name : String
  album_name : Option String
  track_name : String
  duration : Int
  rating : ScrobbleRating
  timestamp : Int
  mb_track_id : Option String
  deriving DecidableEq, Repr

/-- A raw log entry of the older parser (`parser.rs Scrobble`), which also
keeps a track number. -/
structure ScrobbleLog.Scrobble where
  artist_name : String
  album_name : Option String
  track_name : String
  track_num : Option Int
  duration : Int
  rating : ScrobbleRating
  timestamp : Int
  mb_track_id : Option String
  deriving DecidableEq, Repr

/-- Empty-string-to-`None` helper (`audio_scrobbler.rs parse_optional_string`). -/
def parse_optional_string (s : String) : Option String :=
  if s.isEmpty then none else some s

/-- Splitting loop for `splitChar` over the character list. -/
def splitGo (sep : Char) : List Char → List Char → List String
  | [], acc => [String.mk acc.reverse]
  | c :: cs, acc =>
    if c = sep then String.mk acc.reverse :: splitGo sep cs []
    else splitGo sep cs (c :: acc)

/-- Rust `str::split(sep)` collected to a vector: every separator occurrence
cuts, empty pieces are kept, and the empty string yields one empty piece. -/
def splitChar (sep : Char) (s : String) : List String :=
  splitGo sep s.toList []

/-- Digit-run parsing for `parseI64`: at least one character, all decimal
digits. -/
def parseDigits (cs : List Char) : Option Nat :=
  if cs.isEmpty then none
  else
    cs.foldl
      (fun acc c =>
        match acc with
        | none => none
        | some n => if c.isDigit then some (n * 10 + (c.toNat - 48)) else none)
      (some 0)

/-- Rust `str::parse::<i64>`: an optional sign followed by a non-empty digit
run (the i64 range check of the original is irrelevant to the claims settled
here). -/
def parseI64 (s : String) : Option Int :=
  match s.toList with
  | '+' :: cs => (parseDigits cs).map Int.ofNat
  | '-' :: cs => (parseDigits cs).map (fun n => -(Int.ofNat n))
  | cs => (parseDigits cs).map Int.ofNat

/-- Rating field parsing (`audio_scrobbler.rs parse_rating`). -/
def AudioScrobblerParser.parse_rating (s : String) : Except ParserError ScrobbleRating :=
  if s = "L" then .ok .listened
  else if s = "S" then .ok .skipped
  else .error (.syntaxError "Entry rating must be \x27L\x27 or \x27S\x27")

/-- Entry parsing (`audio_scrobbler.rs parse_entry`, lines 86-108).
The source indexes `fields[7]` (only when the log version is "1.1") and
`fields[0]`, `[1]`, `[2]`, `[4]`, `[5]`, `[6]` without bounds checks; each
`fields.get? i` returning `none` aborts with the panic marker. -/
def AudioScrobblerParser.parse_entry (line : String) (version : String) :
    Option (Except ParserError AudioScrobblerParser.Scrobble) :=
  let fields := splitChar '\t' line
  match (if version = "1.1" then (fields.get? 7).map parse_optional_string else some none) with
  | none => none
  | some mb_track_id =>
  match fields.get? 0 with
  | none => none
  | some f0 =>
  match fields.get? 1 with
  | none => none
  | some f1 =>
  match fields.get? 2 with
  | none => none
  | some f2 =>
  match fields.get? 4 with
  | none => none
  | some f4 =>
  match parseI64 f4 with
  | none => some (.error (.syntaxError "invalid digit found in string"))
  | some duration =>
  match fields.get? 5 with
  | none => none
  | some f5 =>
  match AudioScrobblerParser.parse_rating f5 with
  | .error e => some (.error e)
  | .ok rating =>
  match fields.get? 6 with
  | none => none
  | some f6 =>
  match parseI64 f6 with
  | none => some (.error (.syntaxError "invalid digit found in string"))
  | some timestamp =>
  some (.ok
    { artist_name := f0
      album_name := parse_optional_string f1
      track_name := f2
      duration := duration
      rating := rating
      timestamp := timestamp
      mb_track_id := mb_track_id })

/-- Optional integer field of the older parser (`parser.rs parse_optional_i64`);
a non-empty unparsable field is swallowed to `None` by `.ok()`. -/
def ScrobbleLog.parse_optional_i64 (s : String) : Option Int :=
  if s.isEmpty then none else s.toInt?

/-- Rating parsing of the older parser (`parser.rs parse_rating`); errors are
`anyhow` messages, embedded as `String`. -/
def ScrobbleLog.parse_rating (s : String) : Except String ScrobbleRating :=
  if s = "L" then .ok .listened
  else if s = "S" then .ok .skipped
  else .error "Entry rating must be \x27L\x27 or \x27S\x27"

/-- Entry parsing of the older parser (`parser.rs parse_entry`, lines 86-105),
which additionally indexes `fields[3]` for the track number. -/
def ScrobbleLog.parse_entry (line : String) (version : String) :
    Option (Except String ScrobbleLog.Scrobble) :=
  let fields := splitChar '\t' line
  match (if version = "1.1" then (fields.get? 7).map parse_optional_string else some none) with
  | none => none
  | some mb_track_id =>
  match fields.get? 0 with
  | none => none
  | some f0 =>
  match fields.get? 1 with
  | none => none
  | some f1 =>
  match fields.get? 2 with
  | none => none
  | some f2 =>
  match fields.get? 3 with
  | none => none
  | some f3 =>
  match fields.get? 4 with
  | none => none
  | some f4 =>
  match parseI64 f4 with
  | none => some (.error "invalid digit found in string")
  | some duration =>
  match fields.get? 5 with
  | none => none
  | some f5 =>
  match ScrobbleLog.parse_rating f5 with
  | .error e => some (.error e)
  | .ok rating =>
  match fields.get? 6 with
  | none => none
  | some f6 =>
  match parseI64 f6 with
  | none => some (.error "invalid digit found in string")
  | some timestamp =>
  some (.ok
    { artist_name := f0
      album_name := parse_optional_string f1
      track_name := f2
      track_num := ScrobbleLog.parse_optional_i64 f3
      duration := duration
      rating := rating
      timestamp := timestamp
      mb_track_id := mb_track_id })

/-! ## Status record (`record.rs Status`, `status.rs StatusManager`) -/

/-- The mutable per-identity playing-status item (`record.rs PlayView`;
timestamps are `Int` seconds). -/
structure PlayView where
  track_name : String
  track_mb_id : Option String
  recording_mb_id : Option String
  duration : Option Int
  artists : List Artist
  release_name : Option String
  release_mb_id : Option String
  isrc : Option String
  origin_url : Option String
  music_service_base_domain : Option String
  submission_client_agent : Option String
  played_time : Option Int
  deriving DecidableEq, Repr

/-- The `#[derive(Default)]` value of `PlayView`. -/
def PlayView.default : PlayView :=
  { track_name := ""
    track_mb_id := none
    recording_mb_id := none
    duration := none
    artists := []
    release_name := none
    release_mb_id := none
    isrc := none
    origin_url := none
    music_service_base_domain := none
    submission_client_agent := none
    played_time := none }

/-- The status record (`record.rs Status`). -/
structure Status where
  time : Int
  expiry : Option Int
  item : PlayView
  deriving DecidableEq, Repr

/-- Two-digit zero padding, modelling Rust's `{:02}` format. -/
def pad2 (n : Int) : String :=
  if 0 ≤ n && n < 10 then "0" ++ toString n else toString n

/-- Duration formatting of `Status::display` (`record.rs`, lines 274-289),
copied with the source's own arithmetic (`seconds` is computed from
`minutes` only, as in the source). -/
def formatDuration (duration : Int) : String :=
  let hours := duration / 3600
  let minutes := (duration - hours * 3600) / 60
  let seconds := duration - minutes * 60
  let s1 := if hours > 0 then pad2 hours ++ ":" else ""
  let s2 := if minutes > 0 || hours > 0 then s1 ++ pad2 minutes ++ ":" else s1
  if seconds > 0 || minutes > 0 || hours > 0 then s2 ++ pad2 seconds else s2

/-- The lines printed by `Status::display` (`record.rs`, lines 204-324).
The two chrono date formattings (raw with offset, and local) are supplied as
the parameters `fmtR` and `fmtL`. -/
def Status.display (fmtR fmtL : Int → String) (s : Status) (raw full : Bool) :
    List String :=
  if s.item.track_name.isEmpty && s.item.artists.isEmpty && !raw then
    ["nothing playing right now"]
  else
    let trackLine := ["track: " ++ s.item.track_name]
    let trackId :=
      match s.item.track_mb_id with
      | some id => if full then ["track id: " ++ id] else []
      | none => []
    let recId :=
      match s.item.recording_mb_id with
      | some id => if full then ["recording id: " ++ id] else []
      | none => []
    let artistsLine :=
      if !s.item.artists.isEmpty || raw then
        ["artists: " ++ String.intercalate ", " (s.item.artists.map (fun a =>
          a.artist_name ++
            (match a.artist_mb_id with
             | some id => if full then " [" ++ id ++ "]" else ""
             | none => "")))]
      else []
    let releaseLine :=
      match s.item.release_name with
      | some r => ["release: " ++ r]
      | none => []
    let releaseId :=
      match s.item.release_mb_id with
      | some id => if full then ["release id: " ++ id] else []
      | none => []
    let isrcLine :=
      match s.item.isrc with
      | some i => if full then ["isrc: " ++ i] else []
      | none => []
    let playedLine :=
      match s.item.played_time with
      | some t => if raw then ["played: " ++ fmtR t] else ["played: " ++ fmtL t]
      | none => []
    let durationLine :=
      match s.item.duration with
      | some d =>
        if raw then ["duration: " ++ toString d]
        else ["duration: " ++ formatDuration d]
      | none => []
    let serviceLine :=
      match s.item.music_service_base_domain with
      | some srv => if full then ["service: " ++ srv] else []
      | none => []
    let clientLine :=
      match s.item.submission_client_agent with
      | some c => if full then ["client: " ++ c] else []
      | none => []
    let timeLine :=
      if full then
        if raw then ["time: " ++ fmtR s.time] else ["time: " ++ fmtL s.time]
      else []
    let expiryLine :=
      match s.expiry with
      | some t =>
        if full then
          if raw then ["expiry: " ++ fmtR t] else ["expiry: " ++ fmtL t]
        else []
      | none => []
    trackLine ++ trackId ++ recId ++ artistsLine ++ releaseLine ++ releaseId
      ++ isrcLine ++ playedLine ++ durationLine ++ serviceLine ++ clientLine
      ++ timeLine ++ expiryLine

/-- The status record lives at one fixed identity-derived address; its store
state is the record currently there, if any. -/
def StatusStore := Option Status

/-- Modelled from the spec: `status.rs set_status` performs an upsert of the
record at the fixed address through `agent.update_record` (an external
jacquard capability); the net store effect is that the record now holds the
given status. -/
def StatusManager.set_status (_store : StatusStore) (s : Status) : StatusStore :=
  some s

/-- Soft clear (`status.rs clear_status`, lines 86-103): a degenerate set whose
item is `PlayView::default` with an empty track name and artist list, and whose
expiry is one minute (`Duration::minutes(1)`, 60 seconds) before the issue
time `now`. -/
def StatusManager.clear_status (store : StatusStore) (now : Int) : StatusStore :=
  StatusManager.set_status store
    { time := now
      expiry := some (now - 60)
      item := { PlayView.default with track_name := "", artists := [] } }

/-! ## Authentication session lifecycle (`auth.rs`) -/

/-- Subset of `keyring::Error` relevant here: the absent-entry case and an
opaque platform failure. -/
inductive KeyringError where
  | noEntry
  | other (msg : String)
  deriving DecidableEq, Repr

/-- Display text of a keyring error (`keyring::Error`'s Display; the absent
case prints the crate's fixed message). -/
def keyringErrorMsg : KeyringError → String
  | .noEntry => "No matching entry found in secure storage"
  | .other msg => msg

/-- jacquard `SessionStoreError`, embedded as the display message of its
cause (only the `Other(Box<dyn Error>)` shape is produced by this code). -/
inductive SessionStoreError where
  | other (msg : String)
  deriving DecidableEq, Repr

/-- `From<SessionStoreError> for OnyxError` (`error.rs`, lines 67-71). -/
def SessionStoreError.toOnyx : SessionStoreError → OnyxError
  | .other msg => .sessionStore msg

/-- The OS keyring under the fixed service name: the stored entries by key,
plus, per key, an optional injected platform failure that a delete of that key
would report (resolving the nondeterminism of the external secret store). -/
structure KeyringBackend where
  entries : String → Option String
  deleteFaults : String → Option String

/-- keyring `Entry::delete_credential`: an injected fault reports an opaque
error, an absent entry reports `NoEntry`, a present entry is removed.
`Entry::new` is assumed to succeed (it fails only on malformed service
descriptors). -/
def KeyringBackend.deleteCredential (kb : KeyringBackend) (key : String) :
    Except KeyringError Unit × KeyringBackend :=
  match kb.deleteFaults key with
  | some m => (.error (.other m), kb)
  | none =>
    match kb.entries key with
    | some _ =>
      (.ok (), { kb with entries := fun k => if k = key then none else kb.entries k })
    | none => (.error .noEntry, kb)

/-- keyring `Entry::set_password` as used by `KeyringTokenStore::set`
(`auth.rs`, lines 66-72); set failures are folded into the login oracles. -/
def KeyringBackend.setCredential (kb : KeyringBackend) (key value : String) :
    KeyringBackend :=
  { kb with entries := fun k => if k = key then some value else kb.entries k }

/-- `KeyringTokenStore::del` (`auth.rs`, lines 74-79): every failure of
`delete_credential`, `NoEntry` included, is mapped into a store error by
`map_session_store_err`. -/
def KeyringTokenStore.del (kb : KeyringBackend) (key : String) :
    Except SessionStoreError Unit × KeyringBackend :=
  let r := kb.deleteCredential key
  match r.1 with
  | .ok _ => (.ok (), r.2)
  | .error e => (.error (.other (keyringErrorMsg e)), r.2)

/-- `SessionStore<SessionKey, AtpSession>::del` for `KeyringAuthStore`
(`auth.rs`, lines 111-116): composite key `did_sessionid`, with the same
untolerant error mapping as `KeyringTokenStore::del`. -/
def KeyringAuthStore.del (kb : KeyringBackend) (did sid : String) :
    Except SessionStoreError Unit × KeyringBackend :=
  let r := kb.deleteCredential (did ++ "_" ++ sid)
  match r.1 with
  | .ok _ => (.ok (), r.2)
  | .error e => (.error (.other (keyringErrorMsg e)), r.2)

/-- `ClientAuthStore::delete_session` for `KeyringAuthStore` (`auth.rs`,
lines 158-171): `NoEntry` is tolerated, any other failure becomes a store
error. -/
def KeyringAuthStore.delete_session (kb : KeyringBackend) (did sid : String) :
    Except SessionStoreError Unit × KeyringBackend :=
  let r := kb.deleteCredential (did ++ "_" ++ sid)
  match r.1 with
  | .ok _ => (.ok (), r.2)
  | .error .noEntry => (.ok (), r.2)
  | .error (.other e) => (.error (.other e), r.2)

/-- `ClientAuthStore::delete_auth_req_info` for `KeyringAuthStore`
(`auth.rs`, lines 203-212): key `authreq_<state>`, `NoEntry` tolerated. -/
def KeyringAuthStore.delete_auth_req_info (kb : KeyringBackend) (state : String) :
    Except SessionStoreError Unit × KeyringBackend :=
  let r := kb.deleteCredential ("authreq_" ++ state)
  match r.1 with
  | .ok _ => (.ok (), r.2)
  | .error .noEntry => (.ok (), r.2)
  | .error (.other e) => (.error (.other e), r.2)

/-- Modelled from the spec: the file-backed credential store
(`jacquard::FileAuthStore`, an external collaborator) — a keyed collection in
one local file whose delete "on a missing key must succeed"; a backend failure
is fatal. -/
structure FileBackend where
  entries : String → Option String
  deleteFaults : String → Option String

/-- Modelled from the spec: delete of `jacquard::FileAuthStore` — removes the
`did_sessionid` entry, succeeding also when it is absent. -/
def FileAuthStore.delete_session (fb : FileBackend) (did sid : String) :
    Except SessionStoreError Unit × FileBackend :=
  let key := did ++ "_" ++ sid
  match fb.deleteFaults key with
  | some m => (.error (.other m), fb)
  | none =>
    (.ok (), { fb with entries := fun k => if k = key then none else fb.entries k })

/-- Modelled from the spec: insertion into the file-backed store. -/
def FileBackend.set (fb : FileBackend) (key value : String) : FileBackend :=
  { fb with entries := fun k => if k = key then some value else fb.entries k }

/-- The local session pointer (`auth.rs AuthSession`): the contents of the
single `session.json` file. -/
structure AuthSession where
  did : String
  session_id : String
  store : StoreMethod
  auth : AuthMethod
  deriving DecidableEq, Repr

/-- Persistent state of the authenticator: the pointer file (one fixed path
`config_dir/session.json`, hence a single optional value) and the two
credential backends. -/
structure AuthState where
  pointer : Option AuthSession
  keyring : KeyringBackend
  fileStore : FileBackend

/-- `AuthSessionStore::get_session` (`auth.rs`, lines 244-253); file-system
faults and malformed JSON on the local pointer file are not modelled. -/
def AuthSessionStore.get_session (st : AuthState) : Option AuthSession :=
  st.pointer

/-- `AuthSessionStore::set_session` (`auth.rs`, lines 255-260): overwrite the
single pointer file. -/
def AuthSessionStore.set_session (st : AuthState) (s : AuthSession) : AuthState :=
  { st with pointer := some s }

/-- `AuthSessionStore::delete_session` (`auth.rs`, lines 262-270): remove the
pointer file, succeeding also when it is already absent. -/
def AuthSessionStore.delete_session (st : AuthState) : AuthState :=
  { st with pointer := none }

/-- Identity syntax check backing `Did.new`. -/
def didSyntaxOk (s : String) : Bool :=
  match s.toList with
  | 'd' :: 'i' :: 'd' :: ':' :: _ => true
  | _ => false

/-- Modelled from the spec: `jacquard Did::new` syntactic validation of a
stored identity (identities are opaque canonical ids of the shape `did:...`);
the invalid case surfaces through `From<AtStrError>` as `OnyxError::Other`. -/
def Did.new (s : String) : Except OnyxError String :=
  if didSyntaxOk s then .ok s else .error (.other ("invalid did: " ++ s))

/-- `Authenticator::logout` (`auth.rs`, lines 709-728): read the pointer
(absent means not logged in), delete the backing blob via the store the
pointer names, then delete the pointer.  A blob deletion failure propagates
through `From<SessionStoreError>` with the pointer left untouched. -/
def Authenticator.logout (st : AuthState) : Except OnyxError Unit × AuthState :=
  match AuthSessionStore.get_session st with
  | none => (.error (.auth "not logged in"), st)
  | some session =>
    match Did.new session.did with
    | .error e => (.error e, st)
    | .ok did =>
      if session.store = StoreMethod.keyring then
        let r := KeyringAuthStore.delete_session st.keyring did session.session_id
        match r.1 with
        | .error e => (.error e.toOnyx, st)
        | .ok _ =>
          (.ok (), AuthSessionStore.delete_session { st with keyring := r.2 })
      else
        let r := FileAuthStore.delete_session st.fileStore did session.session_id
        match r.1 with
        | .error e => (.error e.toOnyx, st)
        | .ok _ =>
          (.ok (), AuthSessionStore.delete_session { st with fileStore := r.2 })

/-- `Authenticator::get_session_info` (`auth.rs`, lines 730-737): the whoami
read of the pointer. -/
def Authenticator.get_session_info (st : AuthState) : Except OnyxError AuthSession :=
  match AuthSessionStore.get_session st with
  | some session => .ok session
  | none => .error (.auth "not logged in")

/-- A live session handle (`auth.rs GenericSession`), carrying the identifying
(did, session id) pair of the rehydrated backend session object. -/
inductive GenericSession where
  | keyringOAuth (did sid : String)
  | fileOAuth (did sid : String)
  | keyringPassword (did sid : String)
  | filePassword (did sid : String)
  deriving DecidableEq, Repr

/-- Outcomes of the external rehydration calls against the chosen backend:
`CredentialSession::restore` (failure propagates via `From<ClientError>`) and
`OAuthClient::restore` (failure propagates via `From<OAuthError>`), applied to
the pointer's (did, session id). -/
structure RestoreEnv where
  passwordRestore : StoreMethod → String → String → Except String Unit
  oauthRestore : StoreMethod → String → String → Except String Unit

/-- `Authenticator::restore_app_password` (`auth.rs`, lines 658-683). -/
def Authenticator.restore_app_password (env : RestoreEnv)
    (auth_session : AuthSession) : Except OnyxError GenericSession :=
  match Did.new auth_session.did with
  | .error e => .error e
  | .ok did =>
    match auth_session.store with
    | .keyring =>
      match env.passwordRestore .keyring did auth_session.session_id with
      | .ok _ => .ok (.keyringPassword did auth_session.session_id)
      | .error e => .error (.clientError e)
    | .file =>
      match env.passwordRestore .file did auth_session.session_id with
      | .ok _ => .ok (.filePassword did auth_session.session_id)
      | .error e => .error (.clientError e)

/-- `Authenticator::restore_oauth` (`auth.rs`, lines 685-707). -/
def Authenticator.restore_oauth (env : RestoreEnv) (session : AuthSession) :
    Except OnyxError GenericSession :=
  match Did.new session.did with
  | .error e => .error e
  | .ok did =>
    match session.store with
    | .keyring =>
      match env.oauthRestore .keyring did session.session_id with
      | .ok _ => .ok (.keyringOAuth did session.session_id)
      | .error e => .error (.oauthError e)
    | .file =>
      match env.oauthRestore .file did session.session_id with
      | .ok _ => .ok (.fileOAuth did session.session_id)
      | .error e => .error (.oauthError e)

/-- `Authenticator::restore` (`auth.rs`, lines 644-656): pointer absent means
not logged in; otherwise dispatch on the stored auth method. -/
def Authenticator.restore (env : RestoreEnv) (st : AuthState) :
    Except OnyxError GenericSession :=
  match AuthSessionStore.get_session st with
  | none => .error (.auth "not logged in")
  | some session =>
    match session.auth with
    | .oauth => Authenticator.restore_oauth env session
    | .appPassword => Authenticator.restore_app_password env session

/-- Outcomes of the external login flows.  `appLogin` is
`CredentialSession::login` returning the resolved did and the opaque
credential blob it persists; `resolveDid` is `Authenticator::resolve_did`
(external resolver); `oauthLogin` is `OAuthClient::login_with_local_server`
returning the new session id and blob.  Modelled from the spec: the external
flows persist the credential under key identity+session id in the chosen
store. -/
structure LoginEnv where
  appLogin : StoreMethod → String → String → Except OnyxError (String × String)
  resolveDid : String → Except OnyxError String
  oauthLogin : StoreMethod → String → Except OnyxError (String × String)

/-- Record into the chosen backend the credential blob that the external login
flow persisted. -/
def AuthState.persistBlob (st : AuthState) (store : StoreMethod)
    (key blob : String) : AuthState :=
  match store with
  | .keyring => { st with keyring := st.keyring.setCredential key blob }
  | .file => { st with fileStore := st.fileStore.set key blob }

/-- `Authenticator::login_app_password` (`auth.rs`, lines 543-597): the
session id is the constant `"session"`; on success the credential is persisted
in the chosen store and the pointer is overwritten. -/
def Authenticator.login_app_password (env : LoginEnv) (st : AuthState)
    (ident : String) (store_method : StoreMethod) (password : String) :
    Except OnyxError Unit × AuthState :=
  let session_id := "session"
  match env.appLogin store_method ident password with
  | .error e => (.error e, st)
  | .ok (did, blob) =>
    let st2 := st.persistBlob store_method (did ++ "_" ++ session_id) blob
    (.ok (), AuthSessionStore.set_session st2
      { did := did, session_id := session_id, store := store_method,
        auth := .appPassword })

/-- `Authenticator::login_oauth` (`auth.rs`, lines 599-642): resolve the
identity, run the interactive flow, persist, overwrite the pointer. -/
def Authenticator.login_oauth (env : LoginEnv) (st : AuthState)
    (ident : String) (store_method : StoreMethod) :
    Except OnyxError Unit × AuthState :=
  match env.resolveDid ident with
  | .error e => (.error e, st)
  | .ok did =>
    match env.oauthLogin store_method did with
    | .error e => (.error e, st)
    | .ok (session_id, blob) =>
      let st2 := st.persistBlob store_method (did ++ "_" ++ session_id) blob
      (.ok (), AuthSessionStore.set_session st2
        { did := did, session_id := session_id, store := store_method,
          auth := .oauth })

/-- `Authenticator::login` (`auth.rs`, lines 531-541): direct credential
exchange when a password is given, delegated authorization otherwise. -/
def Authenticator.login (env : LoginEnv) (st : AuthState) (ident : String)
    (store : StoreMethod) (password : Option String) :
    Except OnyxError Unit × AuthState :=
  match password with
  | some pass => Authenticator.login_app_password env st ident store pass
  | none => Authenticator.login_oauth env st ident store

/-! ## Concrete fixtures used by witnesses and counterexamples -/

/-- An all-empty placeholder track for positional indexing in statements. -/
def defTrack : ParsedTrack :=
  { track_name := ""
    track_mb_id := none
    recording_mb_id := none
    duration := none
    artist_names := none
    artist_mb_ids := none
    artists := none
    release_name := none
    release_mb_id := none
    isrc := none
    origin_url := none
    music_service_base_domain := none
    client_id := none
    played_time := none
    track_discriminant := none
    release_discriminant := none }

/-- A named track fixture. -/
def namedTrack (name : String) : ParsedTrack :=
  { defTrack with track_name := name }

/-- A keyring with no entries and no injected faults. -/
def emptyKeyring : KeyringBackend :=
  { entries := fun _ => none, deleteFaults := fun _ => none }

/-- A file store with no entries and no injected faults. -/
def emptyFile : FileBackend :=
  { entries := fun _ => none, deleteFaults := fun _ => none }

/-- A logged-out authenticator state. -/
def emptyAuthState : AuthState :=
  { pointer := none, keyring := emptyKeyring, fileStore := emptyFile }

/-- A logged-in fixture: an app-password keyring session for alice whose blob
is present. -/
def aliceState : AuthState :=
  { pointer := some
      { did := "did:plc:alice", session_id := "session",
        store := .keyring, auth := .appPassword }
    keyring :=
      { entries := fun k => if k = "did:plc:alice_session" then some "blobA" else none
        deleteFaults := fun _ => none }
    fileStore := emptyFile }

/-- The alice fixture with an injected keyring platform failure on the blob
delete. -/
def aliceFaultyState : AuthState :=
  { aliceState with
    keyring :=
      { entries := aliceState.keyring.entries
        deleteFaults := fun k =>
          if k = "did:plc:alice_session" then some "platform failure" else none } }

/-- Batch-submission fixture: the second of three tracks fails. -/
def wSubmit : Nat → Play → Except String Unit :=
  fun i _ => if i = 1 then .error "boom" else .ok ()

/-- Three named tracks. -/
def wTracks : List ParsedTrack :=
  [namedTrack "a", namedTrack "b", namedTrack "c"]

/-- Restore oracle fixture in which every rehydration succeeds. -/
def wRestoreEnv : RestoreEnv :=
  { passwordRestore := fun _ _ _ => .ok ()
    oauthRestore := fun _ _ _ => .ok () }

/-- Login oracle fixture: alice and bob resolve to distinct identities. -/
def wLoginEnv : LoginEnv :=
  { appLogin := fun _ ident _ =>
      if ident = "alice.example" then .ok ("did:plc:alice", "blobA")
      else .ok ("did:plc:bob", "blobB")
    resolveDid := fun ident =>
      if ident = "alice.example" then .ok "did:plc:alice" else .ok "did:plc:bob"
    oauthLogin := fun _ _ => .ok ("oauthsid", "oauthblob") }

/-- The state after logging alice in against the fixture oracles. -/
def wStateAfterAlice : AuthState :=
  (Authenticator.login wLoginEnv emptyAuthState "alice.example"
    StoreMethod.keyring (some "pwA")).2

/-! ## Theorems for the claims -/

/-- C8: for every record submitted through the pipeline, `generate_play` sets
the record's `submission_client_agent` field to the provenance string built
from the service name and version — "service/version (id)" when the record
carries a per-record source id, "service/version" otherwise — regardless of
anything the parsed record carried before. -/
theorem generate_play_stamps_client_agent (sc : Scrobbler) (track : ParsedTrack) :
    (sc.generate_play track).submission_client_agent
      = some (match track.client_id with
          | some id => sc.service ++ "/" ++ sc.version ++ " (" ++ id ++ ")"
          | none => sc.service ++ "/" ++ sc.version) := by
  cases h : track.client_id <;>
    simp [Scrobbler.generate_play, Scrobbler.generate_client_agent, h]

/-- C7: `clear_status` is a degenerate `set_status` — it always stores a
status (a soft clear, never a delete) whose item has an empty track name and
empty descriptive fields and whose expiry is strictly before the clear's issue
time; displaying such a status with raw mode off reports nothing playing. -/
theorem clear_status_soft_clear (store : StatusStore) (now : Int)
    (fmtR fmtL : Int → String) (full : Bool) :
    ∃ rec : Status,
      StatusManager.clear_status store now = some rec
      ∧ rec.item.track_name = ""
      ∧ rec.item.artists = []
      ∧ rec.item.track_mb_id = none
      ∧ rec.item.recording_mb_id = none
      ∧ rec.item.duration = none
      ∧ rec.item.release_name = none
      ∧ rec.item.release_mb_id = none
      ∧ rec.item.isrc = none
      ∧ rec.item.origin_url = none
      ∧ rec.item.music_service_base_domain = none
      ∧ rec.item.submission_client_agent = none
      ∧ rec.item.played_time = none
      ∧ rec.expiry = some (now - 60)
      ∧ now - 60 < now
      ∧ Status.display fmtR fmtL rec false full = ["nothing playing right now"] := by
  refine ⟨_, rfl, rfl, rfl, rfl, rfl, rfl, rfl, rfl, rfl, rfl, rfl, rfl, rfl,
    rfl, by omega, rfl⟩

/-- C10: AudioScrobbler log entry parsing is not total: on the non-comment
3-field line "Artist\tAlbum\tTrack", both `AudioScrobblerParser::parse_entry`
and the older `ScrobbleLog::parse_entry` hit an out-of-bounds field index (the
`none` of the embedding, a Rust panic) instead of returning a parse error; and
under log version "1.1" even a 7-field line panics on `fields[7]`, while the
same line parses under version "1.0". -/
theorem parse_entry_panics_on_short_line :
    "Artist\tAlbum\tTrack".toList.head? ≠ some '#'
    ∧ (splitChar '\t' "Artist\tAlbum\tTrack").length = 3
    ∧ AudioScrobblerParser.parse_entry "Artist\tAlbum\tTrack" "1.0" = none
    ∧ ScrobbleLog.parse_entry "Artist\tAlbum\tTrack" "1.0" = none
    ∧ (splitChar '\t' "A\tB\tC\t1\t100\tL\t123").length = 7
    ∧ AudioScrobblerParser.parse_entry "A\tB\tC\t1\t100\tL\t123" "1.1" = none
    ∧ AudioScrobblerParser.parse_entry "A\tB\tC\t1\t100\tL\t123" "1.0"
        = some (Except.ok
            { artist_name := "A"
              album_name := some "B"
              track_name := "C"
              duration := 100
              rating := .listened
              timestamp := 123
              mb_track_id := none }) := by
  decide

/-- C6 counterexample: the user-facing error type is not collapsed to the four
kinds Auth, Io, Parse, Other — a session-store failure surfaces as its own
`SessionStore` kind, outside the collapsed taxonomy, and (although the spec
says session errors are Auth-kind and attach the hint) `handle_error` attaches
no "log in again" hint to it. -/
theorem error_taxonomy_counterexample :
    (OnyxError.sessionStore "keyring unavailable").kindName ∉ specCollapsedKinds
    ∧ handle_error_hint (OnyxError.sessionStore "keyring unavailable") = false := by
  decide

/-- C6 amended: every error surfaced to the user belongs to the twelve-kind
taxonomy actually present in the program (the ten kinds declared in `error.rs`
plus the Auth and Parse kinds constructed in `auth.rs`/`main.rs`), and exactly
the Auth kind causes the "log in again" hint to be printed; in particular
session-store and delegated-authorization errors carry their own kinds and do
not attach the hint. -/
theorem error_taxonomy_amended :
    (∀ e : OnyxError, e.kindName ∈ onyxErrorKinds)
    ∧ (∀ e : OnyxError, handle_error_hint e = true ↔ e.kindName = "Auth")
    ∧ handle_error_hint (.sessionStore "x") = false
    ∧ handle_error_hint (.oauthError "x") = false := by
  refine ⟨fun e => ?_, fun e => ?_, rfl, rfl⟩
  · cases e <;> simp [OnyxError.kindName, onyxErrorKinds]
  · cases e <;> simp [handle_error_hint, OnyxError.kindName]

/-- C5 counterexample: deleting a missing key does not succeed for every store
delete operation — with the key absent (the keyring reports `NoEntry`),
`KeyringTokenStore::del` and the `AtpSession` `SessionStore::del` both return
a store error rather than `Ok`. -/
theorem keyring_del_missing_key_errors :
    (KeyringTokenStore.del emptyKeyring "did:plc:alice_session").1
      = .error (.other "No matching entry found in secure storage")
    ∧ (KeyringAuthStore.del emptyKeyring "did:plc:alice" "session").1
      = .error (.other "No matching entry found in secure storage") := by
  constructor <;> rfl

/-- C5 amended: delete on a missing key succeeds for the `ClientAuthStore`
delete operations used by logout and the delegated-authorization flow
(`delete_session`, `delete_auth_req_info`) and, modelled from the spec, for
the file-backed store; but `KeyringTokenStore::del` and the `AtpSession`
`SessionStore::del` map the keyring's `NoEntry` into a store error instead. -/
theorem delete_missing_key_tolerance (kb : KeyringBackend) (fb : FileBackend)
    (did sid astate key : String)
    (h1 : kb.entries (did ++ "_" ++ sid) = none)
    (h2 : kb.deleteFaults (did ++ "_" ++ sid) = none)
    (h3 : kb.entries ("authreq_" ++ astate) = none)
    (h4 : kb.deleteFaults ("authreq_" ++ astate) = none)
    (h5 : kb.entries key = none) (h6 : kb.deleteFaults key = none)
    (h7 : fb.deleteFaults (did ++ "_" ++ sid) = none) :
    (KeyringAuthStore.delete_session kb did sid).1 = .ok ()
    ∧ (KeyringAuthStore.delete_auth_req_info kb astate).1 = .ok ()
    ∧ (FileAuthStore.delete_session fb did sid).1 = .ok ()
    ∧ (KeyringTokenStore.del kb key).1
        = .error (.other "No matching entry found in secure storage")
    ∧ (KeyringAuthStore.del kb did sid).1
        = .error (.other "No matching entry found in secure storage") := by
  refine ⟨?_, ?_, ?_, ?_, ?_⟩ <;>
    simp [KeyringAuthStore.delete_session, KeyringAuthStore.delete_auth_req_info,
      FileAuthStore.delete_session, KeyringTokenStore.del, KeyringAuthStore.del,
      KeyringBackend.deleteCredential, h1, h2, h3, h4, h5, h6, h7, keyringErrorMsg]

/-- Witness for the amended C5 theorem at a concrete empty keyring and file
store. -/
theorem delete_missing_key_tolerance_witness :
    (KeyringAuthStore.delete_session emptyKeyring "did:plc:alice" "session").1
      = Except.ok () :=
  (delete_missing_key_tolerance emptyKeyring emptyFile "did:plc:alice" "session"
    "state" "key" rfl rfl rfl rfl rfl rfl rfl).1

/-- Logout on a logged-out state reports the not-logged-in auth error and
changes nothing. -/
theorem logout_of_none (st : AuthState) (h : st.pointer = none) :
    Authenticator.logout st = (.error (.auth "not logged in"), st) := by
  simp [Authenticator.logout, AuthSessionStore.get_session, h]

/-- A successful logout removes the pointer. -/
theorem logout_ok_pointer_none (st : AuthState)
    (h : (Authenticator.logout st).1 = .ok ()) :
    (Authenticator.logout st).2.pointer = none := by
  unfold Authenticator.logout at h ⊢
  cases hp : AuthSessionStore.get_session st with
  | none => simp [hp] at h
  | some session =>
    simp only [hp] at h ⊢
    cases hd : Did.new session.did with
    | error e => simp [hd] at h
    | ok did =>
      simp only [hd] at h ⊢
      by_cases hs : session.store = StoreMethod.keyring <;> simp only [hs, if_true, if_false, ite_true, ite_false] at h ⊢
      · cases hr : (KeyringAuthStore.delete_session st.keyring did session.session_id).1 with
        | error e => simp [hr] at h
        | ok _ => simp [hr, AuthSessionStore.delete_session]
      · cases hr : (FileAuthStore.delete_session st.fileStore did session.session_id).1 with
        | error e => simp [hr] at h
        | ok _ => simp [hr, AuthSessionStore.delete_session]

/-- C2: logout is idempotent — after one successful logout a second logout
returns the not-logged-in auth error, never a store error; and when deleting
the backing credential blob fails with any error other than the absent-entry
case, logout returns that store error and leaves the state (in particular the
session pointer) untouched, so logout can be retried. -/
theorem logout_idempotent_retryable (st : AuthState) :
    ((Authenticator.logout st).1 = .ok () →
      Authenticator.logout (Authenticator.logout st).2
        = (.error (.auth "not logged in"), (Authenticator.logout st).2))
    ∧ (∀ s m, st.pointer = some s → didSyntaxOk s.did = true →
        (s.store = .keyring →
          st.keyring.deleteFaults (s.did ++ "_" ++ s.session_id) = some m →
          Authenticator.logout st = (.error (.sessionStore m), st))
        ∧ (s.store = .file →
          st.fileStore.deleteFaults (s.did ++ "_" ++ s.session_id) = some m →
          Authenticator.logout st = (.error (.sessionStore m), st))) := by
  constructor
  · intro h
    exact logout_of_none _ (logout_ok_pointer_none st h)
  · intro s m hp hd
    constructor
    · intro hs hf
      simp [Authenticator.logout, AuthSessionStore.get_session, hp, Did.new, hd,
        hs, KeyringAuthStore.delete_session, KeyringBackend.deleteCredential, hf,
        SessionStoreError.toOnyx]
    · intro hs hf
      simp [Authenticator.logout, AuthSessionStore.get_session, hp, Did.new, hd,
        hs, FileAuthStore.delete_session, KeyringBackend.deleteCredential, hf,
        SessionStoreError.toOnyx]

/-- Witness for C2: logging out the alice fixture succeeds and a second logout
reports not-logged-in; with an injected keyring platform failure the logout
errors with the store error and the state is untouched. -/
theorem logout_idempotent_retryable_witness :
    Authenticator.logout (Authenticator.logout aliceState).2
      = (.error (.auth "not logged in"), (Authenticator.logout aliceState).2)
    ∧ Authenticator.logout aliceFaultyState
      = (.error (.sessionStore "platform failure"), aliceFaultyState) := by
  constructor
  · exact (logout_idempotent_retryable aliceState).1 (by decide)
  · exact (((logout_idempotent_retryable aliceFaultyState).2
      { did := "did:plc:alice", session_id := "session",
        store := .keyring, auth := .appPassword }
      "platform failure" rfl (by decide)).1 rfl (by decide))

/-- The app-password restore never reports the not-logged-in error. -/
theorem restore_app_password_ne_notloggedin (env : RestoreEnv) (s : AuthSession) :
    Authenticator.restore_app_password env s ≠ .error (.auth "not logged in") := by
  unfold Authenticator.restore_app_password Did.new
  cases hd : didSyntaxOk s.did <;> simp only [hd, if_true, if_false, Bool.false_eq_true, ite_true, ite_false]
  · simp
  · cases hs : s.store <;>
      cases hr : env.passwordRestore s.store s.did s.session_id <;>
      simp_all

/-- The OAuth restore never reports the not-logged-in error. -/
theorem restore_oauth_ne_notloggedin (env : RestoreEnv) (s : AuthSession) :
    Authenticator.restore_oauth env s ≠ .error (.auth "not logged in") := by
  unfold Authenticator.restore_oauth Did.new
  cases hd : didSyntaxOk s.did <;> simp only [hd, if_true, if_false, Bool.false_eq_true, ite_true, ite_false]
  · simp
  · cases hs : s.store <;>
      cases hr : env.oauthRestore s.store s.did s.session_id <;>
      simp_all

/-- C3: restore fails with the not-logged-in error exactly when the local
session pointer is absent; with the pointer present it selects the restoration
procedure named by the stored (auth method, store method) pair and returns the
matching `GenericSession` variant carrying the pointer's identity and session
id; and when the external backend rejects the credential the failure
propagates as a client/oauth error, an error distinct from not-logged-in. -/
theorem restore_behavior (env : RestoreEnv) (st : AuthState) :
    ((Authenticator.restore env st = .error (.auth "not logged in"))
        ↔ st.pointer = none)
    ∧ (∀ s, st.pointer = some s → didSyntaxOk s.did = true →
        (s.auth = .appPassword →
          env.passwordRestore s.store s.did s.session_id = .ok () →
          Authenticator.restore env st
            = .ok (match s.store with
                | .keyring => .keyringPassword s.did s.session_id
                | .file => .filePassword s.did s.session_id))
        ∧ (s.auth = .oauth →
          env.oauthRestore s.store s.did s.session_id = .ok () →
          Authenticator.restore env st
            = .ok (match s.store with
                | .keyring => .keyringOAuth s.did s.session_id
                | .file => .fileOAuth s.did s.session_id))
        ∧ (∀ e, s.auth = .appPassword →
          env.passwordRestore s.store s.did s.session_id = .error e →
          Authenticator.restore env st = .error (.clientError e)
            ∧ OnyxError.clientError e ≠ .auth "not logged in")
        ∧ (∀ e, s.auth = .oauth →
          env.oauthRestore s.store s.did s.session_id = .error e →
          Authenticator.restore env st = .error (.oauthError e)
            ∧ OnyxError.oauthError e ≠ .auth "not logged in")) := by
  constructor
  · constructor
    · intro h
      cases hp : st.pointer with
      | none => rfl
      | some s =>
        exfalso
        unfold Authenticator.restore AuthSessionStore.get_session at h
        rw [hp] at h
        cases ha : s.auth <;> simp only [ha] at h
        · exact restore_oauth_ne_notloggedin env s h
        · exact restore_app_password_ne_notloggedin env s h
    · intro h
      simp [Authenticator.restore, AuthSessionStore.get_session, h]
  · intro s hp hd
    refine ⟨?_, ?_, ?_, ?_⟩
    · intro ha hr
      cases hs : s.store <;>
        simp_all [Authenticator.restore, AuthSessionStore.get_session,
          Authenticator.restore_app_password, Did.new]
    · intro ha hr
      cases hs : s.store <;>
        simp_all [Authenticator.restore, AuthSessionStore.get_session,
          Authenticator.restore_oauth, Did.new]
    · intro e ha hr
      cases hs : s.store <;>
        simp_all [Authenticator.restore, AuthSessionStore.get_session,
          Authenticator.restore_app_password, Did.new]
    · intro e ha hr
      cases hs : s.store <;>
        simp_all [Authenticator.restore, AuthSessionStore.get_session,
          Authenticator.restore_oauth, Did.new]

/-- Witness for C3: with the alice pointer present and a succeeding backend,
restore returns the keyring app-password variant for alice; and the restore of
the logged-out state is the not-logged-in error. -/
theorem restore_behavior_witness :
    Authenticator.restore wRestoreEnv aliceState
      = .ok (.keyringPassword "did:plc:alice" "session")
    ∧ Authenticator.restore wRestoreEnv emptyAuthState
      = .error (.auth "not logged in") := by
  constructor
  · exact ((restore_behavior wRestoreEnv aliceState).2
      { did := "did:plc:alice", session_id := "session",
        store := .keyring, auth := .appPassword }
      rfl (by decide)).1 rfl rfl
  · exact (restore_behavior wRestoreEnv emptyAuthState).1.2 rfl

/-- C4: login always overwrites the single session pointer — after any
successful login the pointer file holds exactly the new session (whose store
and auth method are the ones just used) and whoami reports it; moreover the
pointer written by a successful login does not depend on the starting state,
so after login(A) then login(B) only B's identity is reported.  The pointer is
one fixed file (`session.json`), so at most one instance exists on disk. -/
theorem login_overwrites_pointer (env : LoginEnv) (st st2 : AuthState)
    (ident : String) (store : StoreMethod) (password : Option String) :
    ((Authenticator.login env st ident store password).1 = .ok () →
      ∃ s, (Authenticator.login env st ident store password).2.pointer = some s
        ∧ Authenticator.get_session_info
            (Authenticator.login env st ident store password).2 = .ok s
        ∧ s.store = store
        ∧ s.auth = (match password with
            | some _ => AuthMethod.appPassword
            | none => AuthMethod.oauth))
    ∧ ((Authenticator.login env st ident store password).1 = .ok () →
       (Authenticator.login env st2 ident store password).1 = .ok () →
       (Authenticator.login env st ident store password).2.pointer
         = (Authenticator.login env st2 ident store password).2.pointer) := by
  cases password with
  | some pass =>
    unfold Authenticator.login Authenticator.login_app_password
    cases hl : env.appLogin store ident pass with
    | error e => simp [hl]
    | ok v =>
      simp [hl, AuthSessionStore.set_session, Authenticator.get_session_info,
        AuthSessionStore.get_session]
  | none =>
    unfold Authenticator.login Authenticator.login_oauth
    cases hr : env.resolveDid ident with
    | error e => simp [hr]
    | ok did =>
      cases hl : env.oauthLogin store did with
      | error e => simp [hr, hl]
      | ok v =>
        simp [hr, hl, AuthSessionStore.set_session, Authenticator.get_session_info,
          AuthSessionStore.get_session]

/-- Witness for C4: after logging in alice and then bob against the fixture
oracles, the pointer written by bob's login is the same whatever state bob's
login started from — in particular whoami after login(alice); login(bob)
reports bob only. -/
theorem login_overwrites_pointer_witness :
    (Authenticator.login wLoginEnv wStateAfterAlice "bob.example"
        StoreMethod.keyring (some "pwB")).2.pointer
      = (Authenticator.login wLoginEnv emptyAuthState "bob.example"
        StoreMethod.keyring (some "pwB")).2.pointer :=
  (login_overwrites_pointer wLoginEnv wStateAfterAlice emptyAuthState
    "bob.example" StoreMethod.keyring (some "pwB")).2 (by decide) (by decide)

/-- C9: a successful login never deletes the previous session's backing
credential blob — the chosen backend gains the new blob under the new
(identity, session id) key and every other key of both backends is left
unchanged, in both the direct-credential and the delegated-authorization
branches (modelled from the spec, the external flow persists under key
identity+session id; the stale blob is not garbage-collected). -/
theorem login_preserves_stale_blob (env : LoginEnv) (st : AuthState)
    (ident p did blob sid : String) (store : StoreMethod) :
    ((env.appLogin store ident p = .ok (did, blob)) →
      (Authenticator.login env st ident store (some p)).1 = .ok ()
      ∧ (∀ k, k ≠ did ++ "_" ++ "session" →
          (Authenticator.login env st ident store (some p)).2.keyring.entries k
              = st.keyring.entries k
          ∧ (Authenticator.login env st ident store (some p)).2.fileStore.entries k
              = st.fileStore.entries k))
    ∧ ((env.resolveDid ident = .ok did) → (env.oauthLogin store did = .ok (sid, blob)) →
      (Authenticator.login env st ident store none).1 = .ok ()
      ∧ (∀ k, k ≠ did ++ "_" ++ sid →
          (Authenticator.login env st ident store none).2.keyring.entries k
              = st.keyring.entries k
          ∧ (Authenticator.login env st ident store none).2.fileStore.entries k
              = st.fileStore.entries k)) := by
  constructor
  · intro hl
    unfold Authenticator.login Authenticator.login_app_password
    refine ⟨by simp [hl], fun k hk => ?_⟩
    cases store <;>
      simp [hl, AuthSessionStore.set_session, AuthState.persistBlob,
        KeyringBackend.setCredential, FileBackend.set, hk]
  · intro hr hl
    unfold Authenticator.login Authenticator.login_oauth
    refine ⟨by simp [hr, hl], fun k hk => ?_⟩
    cases store <;>
      simp [hr, hl, AuthSessionStore.set_session, AuthState.persistBlob,
        KeyringBackend.setCredential, FileBackend.set, hk]

/-- Witness for C9: after alice's login, logging bob in leaves alice's blob
entry in the keyring exactly as it was. -/
theorem login_preserves_stale_blob_witness :
    (Authenticator.login wLoginEnv wStateAfterAlice "bob.example"
        StoreMethod.keyring (some "pwB")).2.keyring.entries "did:plc:alice_session"
      = wStateAfterAlice.keyring.entries "did:plc:alice_session" :=
  (((login_preserves_stale_blob wLoginEnv wStateAfterAlice "bob.example" "pwB"
      "did:plc:bob" "blobB" "sid" StoreMethod.keyring).1 (by decide)).2
    "did:plc:alice_session" (by decide)).1

/-- If every submission from call number `i` on succeeds, the loop attempts
every track in order and collects no error. -/
theorem scrobbleLoop_all_ok (sc : Scrobbler) (submit : Nat → Play → Except String Unit) :
    ∀ (ts : List ParsedTrack) (i : Nat),
      (∀ j, j < ts.length →
        submit (i + j) (sc.generate_play (ts.getD j defTrack)) = .ok ()) →
      sc.scrobbleLoop submit i ts = (ts.map (fun t => t.track_name), []) := by
  intro ts
  induction ts with
  | nil => intro i _; rfl
  | cons t ts ih =>
    intro i h
    have h0 : submit i (sc.generate_play t) = .ok () := by
      have := h 0 (by simp)
      simpa using this
    have htail : ∀ j, j < ts.length →
        submit (i + 1 + j) (sc.generate_play (ts.getD j defTrack)) = .ok () := by
      intro j hj
      have hh := h (j + 1) (by simpa using Nat.succ_lt_succ hj)
      rw [show i + (j + 1) = i + 1 + j from by omega] at hh
      simpa using hh
    simp [Scrobbler.scrobbleLoop, Scrobbler.scrobble_track, h0, ih (i + 1) htail]

/-- If exactly the `k`-th submission (counting from call number `i`) fails,
the loop still attempts every track in order and collects exactly the one
failure, carrying that track's name. -/
theorem scrobbleLoop_one_err (sc : Scrobbler) (submit : Nat → Play → Except String Unit) :
    ∀ (ts : List ParsedTrack) (i k : Nat) (e : String),
      k < ts.length →
      submit (i + k) (sc.generate_play (ts.getD k defTrack)) = .error e →
      (∀ j, j < ts.length → j ≠ k →
        submit (i + j) (sc.generate_play (ts.getD j defTrack)) = .ok ()) →
      sc.scrobbleLoop submit i ts
        = (ts.map (fun t => t.track_name),
          [.other (e ++ ", for \x27" ++ (ts.getD k defTrack).track_name ++ "\x27")]) := by
  intro ts
  induction ts with
  | nil => intro i k e hk _ _; exact absurd hk (by simp)
  | cons t ts ih =>
    intro i k e hk herr hok
    cases k with
    | zero =>
      have h0 : submit i (sc.generate_play t) = .error e := by simpa using herr
      have htail : ∀ j, j < ts.length →
          submit (i + 1 + j) (sc.generate_play (ts.getD j defTrack)) = .ok () := by
        intro j hj
        have hh := hok (j + 1) (by simpa using Nat.succ_lt_succ hj) (Nat.succ_ne_zero j)
        rw [show i + (j + 1) = i + 1 + j from by omega] at hh
        simpa using hh
      have hrest := scrobbleLoop_all_ok sc submit ts (i + 1) htail
      simp [Scrobbler.scrobbleLoop, Scrobbler.scrobble_track, h0, hrest]
    | succ n =>
      have h0 : submit i (sc.generate_play t) = .ok () := by
        have := hok 0 (by simp) (by omega)
        simpa using this
      have hn : n < ts.length := by simpa using Nat.lt_of_succ_lt_succ hk
      have herr2 : submit (i + 1 + n) (sc.generate_play (ts.getD n defTrack)) = .error e := by
        rw [show i + 1 + n = i + (n + 1) from by omega]
        simpa using herr
      have hok2 : ∀ j, j < ts.length → j ≠ n →
          submit (i + 1 + j) (sc.generate_play (ts.getD j defTrack)) = .ok () := by
        intro j hj hne
        have hh := hok (j + 1) (by simpa using Nat.succ_lt_succ hj) (by omega)
        rw [show i + (j + 1) = i + 1 + j from by omega] at hh
        simpa using hh
      have hrest := ih (i + 1) n e hn herr2 hok2
      simp [Scrobbler.scrobbleLoop, Scrobbler.scrobble_track, h0, hrest]

/-- C1: for every parsed track list in which exactly the submission of record
`k` fails and every other submission succeeds, `scrobble_logfile` attempts
every record in order (the loop never aborts), collects exactly one per-item
failure carrying record `k`'s name, prints the summary reporting `N - 1`
tracks submitted and 1 failed, and the invocation returns an error; and when
no submission fails it returns success reporting the total count. -/
theorem scrobble_logfile_partial_failure (sc : Scrobbler)
    (submit : Nat → Play → Except String Unit) (path : String)
    (tracks : List ParsedTrack) (k : Nat) (e : String)
    (hk : k < tracks.length)
    (herr : submit k (sc.generate_play (tracks.getD k defTrack)) = .error e)
    (hok : ∀ j, j < tracks.length → j ≠ k →
      submit j (sc.generate_play (tracks.getD j defTrack)) = .ok ()) :
    sc.scrobble_logfile submit path tracks
      = { attempted := tracks.map (fun t => t.track_name)
          errors := [.other (e ++ ", for \x27"
            ++ (tracks.getD k defTrack).track_name ++ "\x27")]
          summary := "summary: " ++ toString (tracks.length - 1)
            ++ " tracks submitted, " ++ toString (1 : Nat) ++ " failed"
          result := .error (.other ("failed to scrobble log file " ++ path
            ++ ", see errors above")) }
    ∧ (∀ submit2 : Nat → Play → Except String Unit,
        (∀ j, j < tracks.length →
          submit2 j (sc.generate_play (tracks.getD j defTrack)) = .ok ()) →
        sc.scrobble_logfile submit2 path tracks
          = { attempted := tracks.map (fun t => t.track_name)
              errors := []
              summary := "success: " ++ toString tracks.length ++ " tracks submitted"
              result := .ok () }) := by
  constructor
  · have hloop := scrobbleLoop_one_err sc submit tracks 0 k e hk
      (by simpa using herr) (by intro j hj hne; simpa using hok j hj hne)
    simp [Scrobbler.scrobble_logfile, hloop]
  · intro submit2 hall
    have hloop := scrobbleLoop_all_ok sc submit2 tracks 0
      (by intro j hj; simpa using hall j hj)
    simp [Scrobbler.scrobble_logfile, hloop]

/-- Witness for C1: with three tracks a, b, c and the second submission
failing, the batch collects exactly the one failure carrying b's name. -/
theorem scrobble_logfile_partial_failure_witness :
    (Scrobbler.scrobble_logfile ⟨"onyx", "v1"⟩ wSubmit "log" wTracks).errors
      = [OnyxError.other "boom, for \x27b\x27"] := by
  have h := scrobble_logfile_partial_failure ⟨"onyx", "v1"⟩ wSubmit "log" wTracks 1 "boom"
    (by decide) (by decide) (by decide)
  rw [h.1]
  decide

end Onyx
